import Mathlib

/-!
Verification of the logging excerpt of box-content-preview:
the event/error-code constants of `src/lib/events.js`, the `LogLayer`
console façade, and the log batch transformers, shallowly embedded in Lean.
-/

namespace BoxPreview

/-! ## Constants from src/lib/events.js

`VIEWER_EVENT` and `ERROR_CODE` are plain JS objects mapping identifier keys
to string values.  We embed each as an association list of
(key, value) pairs, in source order. -/

def VIEWER_EVENT : List (String × String) :=
  [("download", "download"),
   ("reload", "reload"),
   ("load", "load"),
   ("progressStart", "progressstart"),
   ("progressEnd", "progressend"),
   ("notificationShow", "notificationshow"),
   ("notificationHide", "notificationhide"),
   ("mediaEndAutoplay", "mediaendautoplay"),
   ("error", "error"),
   ("default", "viewerevent")]

def ERROR_CODE : List (String × String) :=
  [("annotationsLoadFail", "error_annotations_load"),
   ("invalidCacheAttempt", "error_invalid_file_for_cache"),
   ("prefetchFileId", "error_prefetch_file_id"),
   ("rateLimit", "error_rate_limit"),
   ("retriesExceeded", "error_retries_exceeded")]

/-- The list of values of the `VIEWER_EVENT` object, in source order. -/
def viewerEventValues : List String := VIEWER_EVENT.map Prod.snd

/-- The list of values of the `ERROR_CODE` object, in source order. -/
def errorCodeValues : List String := ERROR_CODE.map Prod.snd

/-- A string is entirely lowercase: every character of it is a lowercase
ASCII letter. -/
def allLowercase (s : String) : Bool :=
  s.toList.all Char.isLower

/-- `p` is a prefix of `s`, computed on the character lists (an executable
equivalent of String.startsWith). -/
def strBeginsWith (s p : String) : Bool :=
  p.toList.isPrefixOf s.toList

/-- C1: the values of the exported `VIEWER_EVENT` object are exactly the ten
strings download, reload, load, progressstart, progressend, notificationshow,
notificationhide, mediaendautoplay, error, viewerevent — no more, no fewer
(the value list is literally that ten-element list, hence so is the set). -/
theorem viewer_event_values_exact :
    viewerEventValues =
      ["download", "reload", "load", "progressstart", "progressend",
       "notificationshow", "notificationhide", "mediaendautoplay",
       "error", "viewerevent"] := by
  rfl

/-- C2: the values of the exported `ERROR_CODE` object are exactly the five
strings error_annotations_load, error_invalid_file_for_cache,
error_prefetch_file_id, error_rate_limit, error_retries_exceeded — no more,
no fewer (the value list is literally that five-element list). -/
theorem error_code_values_exact :
    errorCodeValues =
      ["error_annotations_load", "error_invalid_file_for_cache",
       "error_prefetch_file_id", "error_rate_limit",
       "error_retries_exceeded"] := by
  rfl

/-- C9: the values of `VIEWER_EVENT` are pairwise distinct strings, and the
values of `ERROR_CODE` are pairwise distinct strings, so each constant name
denotes a unique event or error identifier. -/
theorem constant_values_nodup :
    viewerEventValues.Nodup ∧ errorCodeValues.Nodup := by
  constructor <;> decide

/-- C10: every value of `ERROR_CODE` is a non-empty string beginning with the
prefix error_, and every value of `VIEWER_EVENT` is a non-empty all-lowercase
string. -/
theorem constant_values_shape :
    (∀ v ∈ errorCodeValues, v ≠ "" ∧ strBeginsWith v "error_" = true) ∧
    (∀ v ∈ viewerEventValues, v ≠ "" ∧ allLowercase v = true) := by
  constructor <;> decide

/-! ## Log constants

`logConstants.js` is referenced by `LogLayer.js` and the transformers but is
not part of the excerpt, so its contents are modelled from the spec. -/

/-- Modelled from the spec: the console verbosity levels of
`CONSOLE_LEVELS` in the missing `logConstants.js`.  The spec requires a
totally ordered enum info < warning < error < silent. -/
inductive ConsoleLevel where
  | info
  | warning
  | error
  | silent
deriving DecidableEq, Repr

/-- Modelled from the spec: the numeric values backing `CONSOLE_LEVELS`
(the façade compares them with `<=`); any strictly increasing assignment
realises the required ordering info < warning < error < silent. -/
def CONSOLE_LEVELS : ConsoleLevel → Nat
  | .info => 1
  | .warning => 2
  | .error => 3
  | .silent => 4

/-- Modelled from the spec: the log types of `LOG_TYPES` in the missing
`logConstants.js`; `LogLayer.js` uses info, warning, error, uncaught_error
and metric. -/
inductive LogType where
  | info
  | warning
  | error
  | uncaughtError
  | metric
deriving DecidableEq, Repr

/-- Modelled from the spec: the string value of each `LOG_TYPES` entry,
used in the printed message prefix. -/
def LOG_TYPES : LogType → String
  | .info => "info"
  | .warning => "warning"
  | .error => "error"
  | .uncaughtError => "uncaught_error"
  | .metric => "metric"

/-- The console level a log type is compared against, following the switch
in `LogLayer.canPrintLog` of `LogLayer.js`: warning maps to warning,
error and uncaught_error map to error, and info together with the default
arm (hence also metric) map to info. -/
def logTypeLevel : LogType → ConsoleLevel
  | .warning => .warning
  | .error => .error
  | .uncaughtError => .error
  | _ => .info

/-- `LogLayer.canPrintLog` of `LogLayer.js`: printing is permitted when the
configured numeric console level is `<=` the numeric value of the log
type's level. -/
def canPrintLog (consoleLevel : Nat) (type : LogType) : Bool :=
  decide (consoleLevel ≤ CONSOLE_LEVELS (logTypeLevel type))

/-- C3: for every log type L and configured threshold T, `canPrintLog`
under threshold T permits L iff the severity of L's level is at least the
severity of T, the severities realise the total order
info < warning < error < silent, and a threshold of silent permits no
printing at all. -/
theorem can_print_iff_severity_ge :
    (∀ (L : LogType) (T : ConsoleLevel),
        canPrintLog (CONSOLE_LEVELS T) L = true ↔
          CONSOLE_LEVELS (logTypeLevel L) ≥ CONSOLE_LEVELS T) ∧
    (CONSOLE_LEVELS .info < CONSOLE_LEVELS .warning ∧
      CONSOLE_LEVELS .warning < CONSOLE_LEVELS .error ∧
      CONSOLE_LEVELS .error < CONSOLE_LEVELS .silent) ∧
    (∀ L : LogType, canPrintLog (CONSOLE_LEVELS .silent) L = false) := by
  refine ⟨?_, by decide, fun L => by cases L <;> rfl⟩
  intro L T
  simp [canPrintLog, ge_iff_le]

/-! ## Batch transformers from logTransformers.js

The transformers reshape buffered log records into a batch payload.
Records carry a timestamp and an opaque message; JS `forEach`/`push`
loops become left folds that append to the events list. -/

/-- Modelled from the spec: the string values of `LOG_CODES` in the missing
`logConstants.js`; the spec's examples use the uppercase codes ERROR,
WARNING, INFO, METRIC. -/
def LOG_CODES : LogType → String
  | .info => "INFO"
  | .warning => "WARNING"
  | .error => "ERROR"
  | .uncaughtError => "UNCAUGHT_ERROR"
  | .metric => "METRIC"

/-- Modelled from the spec: the control sentinel `METRIC_CONTROL` from the
missing `metricsConstants.js`; an opaque reserved string, its exact value
is irrelevant to the transformers, which only compare codes against it. -/
def METRIC_CONTROL : String := "metric_control"

/-- A buffered log record: a timestamp plus an opaque message value. -/
structure LogRecord (α : Type) where
  timestamp : String
  message : α
deriving DecidableEq, Repr

/-- One entry of a batch's `events` array. -/
structure BatchEvent (α : Type) where
  timestamp : String
  code : String
  value : α
deriving DecidableEq, Repr

/-- The batch container shape built by `makeBatchContainer`. -/
structure Batch (α : Type) where
  event_type : String
  events : List (BatchEvent α)
deriving DecidableEq, Repr

/-- `makeBatchContainer` of `logTransformers.js`: a batch with the given
event type and an empty events array. -/
def makeBatchContainer (α : Type) (event : String) : Batch α :=
  ⟨event, []⟩

/-- `transformGeneric` of `logTransformers.js`: push one event per record
onto the batch, with the record's timestamp, the batch's event code, and
the record's message as value. -/
def transformGeneric (event : String) (logs : List (LogRecord α)) : Batch α :=
  logs.foldl
    (fun batch log =>
      { batch with events := batch.events ++ [⟨log.timestamp, event, log.message⟩] })
    (makeBatchContainer α event)

/-- `transformWarnings` of `logTransformers.js`. -/
def transformWarnings (logs : List (LogRecord α)) : Batch α :=
  transformGeneric (LOG_CODES .warning) logs

/-- `transformInfo` of `logTransformers.js`. -/
def transformInfo (logs : List (LogRecord α)) : Batch α :=
  transformGeneric (LOG_CODES .info) logs

/-- `transformErrors` of `logTransformers.js`. -/
def transformErrors (logs : List (LogRecord α)) : Batch α :=
  transformGeneric (LOG_CODES .error) logs

/-- The message of a metric record: a metric code plus a metric value. -/
structure MetricMessage (α : Type) where
  metricCode : String
  metricValue : α
deriving DecidableEq, Repr

/-- One entry of the side list `controlEvents` in `transformMetrics`: the
record's timestamp paired with its metric value reused as the code. -/
structure ControlEvent (α : Type) where
  timestamp : String
  code : α
deriving DecidableEq, Repr

/-- The value slot of a metric batch event: either a plain metric value, or
(for the one synthetic trailing event) the collected list of control
events. -/
inductive MetricEventValue (α : Type) where
  | plain : α → MetricEventValue α
  | controls : List (ControlEvent α) → MetricEventValue α
deriving DecidableEq, Repr

/-- The loop body of `transformMetrics`: a control record (metricCode equal
to the sentinel) is pushed onto the side list with its value as code;
any other record is pushed onto the batch's events. -/
def transformMetricsStep
    (acc : Batch (MetricEventValue α) × List (ControlEvent α))
    (log : LogRecord (MetricMessage α)) :
    Batch (MetricEventValue α) × List (ControlEvent α) :=
  if log.message.metricCode = METRIC_CONTROL then
    (acc.1, acc.2 ++ [⟨log.timestamp, log.message.metricValue⟩])
  else
    ({ acc.1 with
        events := acc.1.events ++
          [⟨log.timestamp, log.message.metricCode, .plain log.message.metricValue⟩] },
      acc.2)

/-- `transformMetrics` of `logTransformers.js`.  The call to `getISOTime`
(from the missing `logUtils.js`) is modelled by the parameter `now`, the
timestamp of the moment the transform runs.  After the pass over the
records, a non-empty side list is appended as one synthetic trailing event
stamped `now`. -/
def transformMetrics (now : String) (logs : List (LogRecord (MetricMessage α))) :
    Batch (MetricEventValue α) :=
  let acc := logs.foldl transformMetricsStep
    (makeBatchContainer (MetricEventValue α) (LOG_CODES .metric), [])
  if acc.2.length ≠ 0 then
    { acc.1 with events := acc.1.events ++ [⟨now, METRIC_CONTROL, .controls acc.2⟩] }
  else
    acc.1

/-- The events list built by `transformGeneric` is the pointwise image of
the input records, in order. -/
theorem transformGeneric_events (event : String) (logs : List (LogRecord α)) :
    (transformGeneric event logs).events =
      logs.map (fun log => ⟨log.timestamp, event, log.message⟩) := by
  suffices h : ∀ b : Batch α,
      (logs.foldl
        (fun batch log =>
          { batch with events := batch.events ++ [⟨log.timestamp, event, log.message⟩] })
        b).events =
      b.events ++ logs.map (fun log => ⟨log.timestamp, event, log.message⟩) by
    simpa [transformGeneric, makeBatchContainer] using h (makeBatchContainer α event)
  induction logs with
  | nil => intro b; simp
  | cons l ls ih => intro b; simp [ih]

/-- `transformGeneric` never changes the event type it was given. -/
theorem transformGeneric_event_type (event : String) (logs : List (LogRecord α)) :
    (transformGeneric event logs).event_type = event := by
  suffices h : ∀ b : Batch α,
      (logs.foldl
        (fun batch log =>
          { batch with events := batch.events ++ [⟨log.timestamp, event, log.message⟩] })
        b).event_type = b.event_type by
    simpa [transformGeneric, makeBatchContainer] using h (makeBatchContainer α event)
  induction logs with
  | nil => intro b; rfl
  | cons l ls ih => intro b; simp [ih]

/-- C4: for every event code other than the metric code and every list of
records, the generic transform returns a batch whose event_type is that
code and whose events list maps the records in order to
(timestamp, code, value = message). -/
theorem transform_generic_spec (event : String) (logs : List (LogRecord α))
    (hev : event ≠ LOG_CODES .metric) :
    (transformGeneric event logs).event_type = event ∧
    (transformGeneric event logs).events =
      logs.map (fun log => ⟨log.timestamp, event, log.message⟩) :=
  ⟨transformGeneric_event_type event logs, transformGeneric_events event logs⟩

/-- Witness for C4 at the spec's example: transforming one error record
with timestamp t1 and message boom. -/
theorem transform_generic_spec_witness :
    "ERROR" ≠ LOG_CODES .metric ∧
    ((transformGeneric "ERROR" [⟨"t1", "boom"⟩]).event_type = "ERROR" ∧
      (transformGeneric "ERROR" [(⟨"t1", "boom"⟩ : LogRecord String)]).events =
        [⟨"t1", "ERROR", "boom"⟩]) :=
  ⟨by decide, by
    simpa using transform_generic_spec "ERROR" [(⟨"t1", "boom"⟩ : LogRecord String)]
      (by decide)⟩

/-- Whether a metric record is a control record: its metric code equals the
control sentinel. -/
def isControlRecord (l : LogRecord (MetricMessage α)) : Bool :=
  l.message.metricCode == METRIC_CONTROL

/-- The batch event a non-control metric record is pushed as. -/
def metricMainEvent (l : LogRecord (MetricMessage α)) : BatchEvent (MetricEventValue α) :=
  ⟨l.timestamp, l.message.metricCode, .plain l.message.metricValue⟩

/-- The side-list entry a control record is pushed as: its metric value
becomes the code. -/
def metricControlEvent (l : LogRecord (MetricMessage α)) : ControlEvent α :=
  ⟨l.timestamp, l.message.metricValue⟩

/-- The single pass of `transformMetrics` partitions the records: the main
events are the non-control records in order, the side list the control
records in order. -/
theorem transformMetrics_foldl (logs : List (LogRecord (MetricMessage α)))
    (b : Batch (MetricEventValue α)) (c : List (ControlEvent α)) :
    logs.foldl transformMetricsStep (b, c) =
      (⟨b.event_type,
        b.events ++ (logs.filter (fun l => !isControlRecord l)).map metricMainEvent⟩,
       c ++ (logs.filter isControlRecord).map metricControlEvent) := by
  induction logs generalizing b c with
  | nil => simp
  | cons l ls ih =>
    by_cases h : l.message.metricCode = METRIC_CONTROL
    · simp [transformMetricsStep, h, ih, isControlRecord, metricControlEvent]
    · simp [transformMetricsStep, h, ih, isControlRecord, metricMainEvent]

/-- C5: for every metric record list containing at least one control record,
`transformMetrics` yields the non-control events in input order as
(timestamp, metricCode, metricValue), followed by exactly one trailing
synthetic event whose code is the control sentinel, whose timestamp is the
transform-call time `now`, and whose value is the ordered list of control
entries — the codes of that list being exactly the control records'
metricValue fields in order. -/
theorem transform_metrics_control_spec (now : String)
    (logs : List (LogRecord (MetricMessage α)))
    (h : ∃ l ∈ logs, l.message.metricCode = METRIC_CONTROL) :
    (transformMetrics now logs).event_type = LOG_CODES .metric ∧
    (transformMetrics now logs).events =
      (logs.filter (fun l => !isControlRecord l)).map metricMainEvent
        ++ [⟨now, METRIC_CONTROL,
              .controls ((logs.filter isControlRecord).map metricControlEvent)⟩] ∧
    ((logs.filter isControlRecord).map metricControlEvent).map ControlEvent.code
      = (logs.filter isControlRecord).map (fun l => l.message.metricValue) := by
  have hcond : ∃ x ∈ logs, isControlRecord x = true := by
    rcases h with ⟨l, hl, hcode⟩
    exact ⟨l, hl, by simp [isControlRecord, hcode]⟩
  refine ⟨?_, ?_, ?_⟩
  · simp [transformMetrics, transformMetrics_foldl, makeBatchContainer, hcond]
  · simp [transformMetrics, transformMetrics_foldl, makeBatchContainer, hcond]
  · simp [metricControlEvent]

/-- Witness for C5 at the spec's example: one plain metric record (code m1,
value five) followed by one control record whose metric value is m1; the
result keeps the plain event first and appends one synthetic control event
stamped with the transform time. -/
theorem transform_metrics_control_spec_witness :
    (∃ l ∈ [(⟨"t1", ⟨"m1", "5"⟩⟩ : LogRecord (MetricMessage String)),
             ⟨"t2", ⟨METRIC_CONTROL, "m1"⟩⟩],
        l.message.metricCode = METRIC_CONTROL) ∧
    (transformMetrics "now"
        [(⟨"t1", ⟨"m1", "5"⟩⟩ : LogRecord (MetricMessage String)),
         ⟨"t2", ⟨METRIC_CONTROL, "m1"⟩⟩]).events =
      [⟨"t1", "m1", .plain "5"⟩,
       ⟨"now", METRIC_CONTROL, .controls [⟨"t2", "m1"⟩]⟩] := by
  constructor
  · exact ⟨⟨"t2", ⟨METRIC_CONTROL, "m1"⟩⟩, by simp, rfl⟩
  · have h := transform_metrics_control_spec "now"
      [(⟨"t1", ⟨"m1", "5"⟩⟩ : LogRecord (MetricMessage String)),
       ⟨"t2", ⟨METRIC_CONTROL, "m1"⟩⟩]
      ⟨⟨"t2", ⟨METRIC_CONTROL, "m1"⟩⟩, by simp, rfl⟩
    simpa [isControlRecord, metricMainEvent, metricControlEvent, METRIC_CONTROL]
      using h.2.1

/-- C6: on empty input the generic transform returns a batch with the given
event type and no events, and `transformMetrics` returns event_type METRIC
with no events and, in particular, no trailing synthetic control event. -/
theorem transform_empty (event : String) (now : String) :
    transformGeneric event ([] : List (LogRecord α)) = ⟨event, []⟩ ∧
    transformMetrics now ([] : List (LogRecord (MetricMessage β))) = ⟨"METRIC", []⟩ := by
  exact ⟨rfl, rfl⟩

/-! ## The LogLayer façade from LogLayer.js

State: the configured numeric console level and the cached `loggerRef`.
The global environment holds the `global.Box` slot: absent, or present
with or without a `Logger` property.  Each public method is embedded as a
function from environment and state to an `Except`-wrapped result (JS
exceptions become `Except.error`), paired with the console lines printed
and the calls forwarded to the external logger, in order. -/

/-- The `global.Box` slot: `none` when `global.Box` is undefined; otherwise
whether `global.Box.Logger` is set (the external logger is opaque, only its
presence matters to the façade). -/
structure GlobalEnv where
  box : Option Bool
deriving DecidableEq, Repr

/-- The façade's own mutable fields: the console level and the memoized
external logger reference (`true` once a logger reference is held). -/
structure LogLayerState where
  consoleLevel : Nat
  loggerRef : Bool
deriving DecidableEq, Repr

/-- The console channels picked by `getConsoleFunction`. -/
inductive ConsoleChannel where
  | log
  | warn
  | error
deriving DecidableEq, Repr

/-- One console write: the channel used and the printed string. -/
structure ConsolePrint where
  channel : ConsoleChannel
  message : String
deriving DecidableEq, Repr

/-- A call forwarded to the external logger object, with its arguments. -/
inductive LoggerCall where
  | info (args : List String)
  | warn (args : List String)
  | error (args : List String)
  | metric (eventName : String) (value : String)
  | setFile (file : String)
  | setContentType (contentType : String)
  | setupNetworkLayer (config : String)
  | reset
  | save (logTypes : List String)
  | clearCache
deriving DecidableEq, Repr

/-- `LogLayer.getConsoleFunction`: warning prints through the warn channel,
error and uncaught_error through the error channel, everything else
(info and the default arm) through the log channel. -/
def getConsoleFunction : LogType → ConsoleChannel
  | .warning => .warn
  | .error => .error
  | .uncaughtError => .error
  | _ => .log

/-- Modelled from the spec: `arrayToString` of the missing `logUtils.js`
joins the argument list into a single string (the spec gives the message
format as the type tag in square brackets followed by the joined args). -/
def arrayToString (data : List String) : String :=
  String.intercalate " " data

/-- `LogLayer.printLog`: when `canPrintLog` permits the type, write one
formatted line through the type's console function; otherwise nothing. -/
def printLog (s : LogLayerState) (type : LogType) (data : List String) :
    List ConsolePrint :=
  if canPrintLog s.consoleLevel type then
    [⟨getConsoleFunction type, "[" ++ LOG_TYPES type ++ "] " ++ arrayToString data⟩]
  else
    []

/-- `LogLayer.boxLoggerExists`: refresh `loggerRef` from the cached value or
from `global.Box.Logger`, then report whether a logger reference is held.
Returns the boolean result and the updated state. -/
def boxLoggerExists (g : GlobalEnv) (s : LogLayerState) : Bool × LogLayerState :=
  let newRef := s.loggerRef ||
    (match g.box with
      | some hasLogger => hasLogger
      | none => false)
  (newRef, { s with loggerRef := newRef })

/-- The result of one façade method: a JS exception, or the updated state
with the console lines printed and the logger calls made, in order. -/
abbrev MethodResult := Except String (LogLayerState × List ConsolePrint × List LoggerCall)

/-- A method call on the `loggerRef` member: in JS this throws a TypeError
when the reference is null, and performs the call otherwise. -/
def callLoggerRef (refPresent : Bool) (c : LoggerCall) : Except String (List LoggerCall) :=
  if refPresent then .ok [c] else .error "TypeError: loggerRef is null"

/-- `LogLayer.info`: print through `printLog`, return early when no logger
exists, otherwise forward the args unchanged to the logger's info. -/
def LogLayer.info (g : GlobalEnv) (s : LogLayerState) (args : List String) :
    MethodResult :=
  let prints := printLog s .info args
  let s₁ := (boxLoggerExists g s).2
  if !(boxLoggerExists g s).1 then
    .ok (s₁, prints, [])
  else
    (callLoggerRef s₁.loggerRef (.info args)).map (fun cs => (s₁, prints, cs))

/-- `LogLayer.warn`: as info, at the warning type, forwarding to warn. -/
def LogLayer.warn (g : GlobalEnv) (s : LogLayerState) (args : List String) :
    MethodResult :=
  let prints := printLog s .warning args
  let s₁ := (boxLoggerExists g s).2
  if !(boxLoggerExists g s).1 then
    .ok (s₁, prints, [])
  else
    (callLoggerRef s₁.loggerRef (.warn args)).map (fun cs => (s₁, prints, cs))

/-- `LogLayer.error`: as info, at the error type, forwarding to error. -/
def LogLayer.error (g : GlobalEnv) (s : LogLayerState) (args : List String) :
    MethodResult :=
  let prints := printLog s .error args
  let s₁ := (boxLoggerExists g s).2
  if !(boxLoggerExists g s).1 then
    .ok (s₁, prints, [])
  else
    (callLoggerRef s₁.loggerRef (.error args)).map (fun cs => (s₁, prints, cs))

/-- `LogLayer.metric`: print at the metric type with the pair of arguments,
then forward (eventName, value) to the logger's metric. -/
def LogLayer.metric (g : GlobalEnv) (s : LogLayerState)
    (eventName : String) (value : String) : MethodResult :=
  let prints := printLog s .metric [eventName, value]
  let s₁ := (boxLoggerExists g s).2
  if !(boxLoggerExists g s).1 then
    .ok (s₁, prints, [])
  else
    (callLoggerRef s₁.loggerRef (.metric eventName value)).map (fun cs => (s₁, prints, cs))

/-- `LogLayer.setFile`: pure pass-through, nothing printed. -/
def LogLayer.setFile (g : GlobalEnv) (s : LogLayerState) (file : String) :
    MethodResult :=
  let s₁ := (boxLoggerExists g s).2
  if !(boxLoggerExists g s).1 then
    .ok (s₁, [], [])
  else
    (callLoggerRef s₁.loggerRef (.setFile file)).map (fun cs => (s₁, [], cs))

/-- `LogLayer.setContentType`: pure pass-through, nothing printed. -/
def LogLayer.setContentType (g : GlobalEnv) (s : LogLayerState) (t : String) :
    MethodResult :=
  let s₁ := (boxLoggerExists g s).2
  if !(boxLoggerExists g s).1 then
    .ok (s₁, [], [])
  else
    (callLoggerRef s₁.loggerRef (.setContentType t)).map (fun cs => (s₁, [], cs))

/-- `LogLayer.setupNetworkLayer`: pure pass-through, nothing printed. -/
def LogLayer.setupNetworkLayer (g : GlobalEnv) (s : LogLayerState) (config : String) :
    MethodResult :=
  let s₁ := (boxLoggerExists g s).2
  if !(boxLoggerExists g s).1 then
    .ok (s₁, [], [])
  else
    (callLoggerRef s₁.loggerRef (.setupNetworkLayer config)).map (fun cs => (s₁, [], cs))

/-- `LogLayer.reset`: pure pass-through, nothing printed. -/
def LogLayer.reset (g : GlobalEnv) (s : LogLayerState) : MethodResult :=
  let s₁ := (boxLoggerExists g s).2
  if !(boxLoggerExists g s).1 then
    .ok (s₁, [], [])
  else
    (callLoggerRef s₁.loggerRef .reset).map (fun cs => (s₁, [], cs))

/-- `LogLayer.save`: return early when no logger exists; otherwise call the
logger's save with the two kinds error and metric, then its clearCache, in
that source order. -/
def LogLayer.save (g : GlobalEnv) (s : LogLayerState) : MethodResult :=
  let s₁ := (boxLoggerExists g s).2
  if !(boxLoggerExists g s).1 then
    .ok (s₁, [], [])
  else
    match callLoggerRef s₁.loggerRef (.save [LOG_TYPES .error, LOG_TYPES .metric]) with
    | .error e => .error e
    | .ok cs₁ =>
      match callLoggerRef s₁.loggerRef .clearCache with
      | .error e => .error e
      | .ok cs₂ => .ok (s₁, [], cs₁ ++ cs₂)

/-- C7: whenever an external logger is present, the façade's save forwards
exactly two calls, in order: the logger's save (persist) with exactly the
kinds error and metric, and only then clearCache — the clear is never
issued before the persist, and no exception is raised. -/
theorem save_persists_before_clear (g : GlobalEnv) (s : LogLayerState)
    (h : (boxLoggerExists g s).1 = true) :
    LogLayer.save g s =
      .ok ((boxLoggerExists g s).2, [],
        [.save [LOG_TYPES .error, LOG_TYPES .metric], .clearCache]) := by
  simp only [boxLoggerExists] at h ⊢
  simp [LogLayer.save, boxLoggerExists, callLoggerRef, h]

/-- Witness for C7: a global environment whose Box slot carries a logger
and a façade that has not yet cached it. -/
theorem save_persists_before_clear_witness :
    (boxLoggerExists ⟨some true⟩ ⟨4, false⟩).1 = true ∧
    LogLayer.save ⟨some true⟩ ⟨4, false⟩ =
      .ok ((boxLoggerExists ⟨some true⟩ ⟨4, false⟩).2, [],
        [.save [LOG_TYPES .error, LOG_TYPES .metric], .clearCache]) :=
  ⟨rfl, save_persists_before_clear ⟨some true⟩ ⟨4, false⟩ rfl⟩

/-- C8: with no external logger present, every façade method — info, warn,
error, metric, setFile, setContentType, setupNetworkLayer, reset, save —
returns without raising an exception, forwards nothing to a logger, and the
leveled methods still produce exactly the console output `printLog` permits
under the configured threshold. -/
theorem no_logger_silent_noop (g : GlobalEnv) (s : LogLayerState)
    (h : (boxLoggerExists g s).1 = false) :
    (∀ args, LogLayer.info g s args =
        .ok ((boxLoggerExists g s).2, printLog s .info args, [])) ∧
    (∀ args, LogLayer.warn g s args =
        .ok ((boxLoggerExists g s).2, printLog s .warning args, [])) ∧
    (∀ args, LogLayer.error g s args =
        .ok ((boxLoggerExists g s).2, printLog s .error args, [])) ∧
    (∀ n v, LogLayer.metric g s n v =
        .ok ((boxLoggerExists g s).2, printLog s .metric [n, v], [])) ∧
    (∀ f, LogLayer.setFile g s f = .ok ((boxLoggerExists g s).2, [], [])) ∧
    (∀ t, LogLayer.setContentType g s t = .ok ((boxLoggerExists g s).2, [], [])) ∧
    (∀ c, LogLayer.setupNetworkLayer g s c = .ok ((boxLoggerExists g s).2, [], [])) ∧
    LogLayer.reset g s = .ok ((boxLoggerExists g s).2, [], []) ∧
    LogLayer.save g s = .ok ((boxLoggerExists g s).2, [], []) := by
  refine ⟨fun args => ?_, fun args => ?_, fun args => ?_, fun n v => ?_,
    fun f => ?_, fun t => ?_, fun c => ?_, ?_, ?_⟩ <;>
    simp only [LogLayer.info, LogLayer.warn, LogLayer.error, LogLayer.metric,
      LogLayer.setFile, LogLayer.setContentType, LogLayer.setupNetworkLayer,
      LogLayer.reset, LogLayer.save, h] <;>
    rfl

/-- Witness for C8: `global.Box` undefined and an empty logger cache; the
silent threshold is configured, and both a leveled call and save complete
as exception-free no-ops. -/
theorem no_logger_silent_noop_witness :
    (boxLoggerExists ⟨none⟩ ⟨4, false⟩).1 = false ∧
    LogLayer.info ⟨none⟩ ⟨4, false⟩ ["a"] =
      .ok ((boxLoggerExists ⟨none⟩ ⟨4, false⟩).2,
        printLog ⟨4, false⟩ .info ["a"], []) ∧
    LogLayer.save ⟨none⟩ ⟨4, false⟩ =
      .ok ((boxLoggerExists ⟨none⟩ ⟨4, false⟩).2, [], []) :=
  ⟨rfl,
    (no_logger_silent_noop ⟨none⟩ ⟨4, false⟩ rfl).1 ["a"],
    (no_logger_silent_noop ⟨none⟩ ⟨4, false⟩ rfl).2.2.2.2.2.2.2.2⟩

end BoxPreview
